import Mathlib

/-!
Verification of the process-supervision core of the PDANET+RWT GUI
(`src/ui.py`): output filtering, the process-output reader loop, the
escalating shutdown sequence, the log tailer, and the GUI start/stop
entry points, shallowly embedded as pure Lean functions over event traces.
-/

set_option maxHeartbeats 1000000
set_option synthInstance.maxSize 2000

/-- Atoms of the regular expressions used in the suppression patterns:
a literal character (matched case-insensitively, mirroring `re.IGNORECASE`;
every literal in the source patterns is stored lowercased), the `.*`
wildcard (any run of non-newline characters), and the `[0-9a-fA-F]+`
character class from the second pattern. -/
inductive RAtom where
  | lit : Char → RAtom
  | dotStar : RAtom
  | hexPlus : RAtom
deriving DecidableEq

/-- Membership in the `[0-9a-fA-F]` character class. -/
def isHexChar (c : Char) : Bool :=
  c.isDigit || (('a' ≤ c) && (c ≤ 'f')) || (('A' ≤ c) && (c ≤ 'F'))

/-- The wildcard `.*` followed by the continuation `f`: either `f` matches right here, or
the head character is consumed by the wildcard (which never crosses a
newline, as in the Python default dot). -/
def matchStar (f : List Char → Bool) : List Char → Bool
  | [] => f []
  | d :: ds => f (d :: ds) || ((d != '\n') && matchStar f ds)

/-- The class `[0-9a-fA-F]+` followed by the continuation `f`: at least one hex digit
is consumed, then either `f` matches or further hex digits are consumed. -/
def matchHexPlus (f : List Char → Bool) : List Char → Bool
  | [] => false
  | d :: ds => isHexChar d && (f ds || matchHexPlus f ds)

/-- Does the pattern match some prefix of `cs`, starting exactly at the head
of `cs`?  Literal characters compare after lowercasing the subject character
(the pattern side is pre-lowercased), which is `re.IGNORECASE` for the ASCII
patterns at hand. -/
def matchHere : List RAtom → List Char → Bool
  | [], _ => true
  | .lit _ :: _, [] => false
  | .lit c :: ps, d :: ds => (d.toLower == c) && matchHere ps ds
  | .dotStar :: ps, ds => matchStar (matchHere ps) ds
  | .hexPlus :: ps, ds => matchHexPlus (matchHere ps) ds

/-- Search as in `re.search`: does the pattern match starting at some
position of `cs`? -/
def reSearch (p : List RAtom) : List Char → Bool
  | [] => matchHere p []
  | d :: ds => matchHere p (d :: ds) || reSearch p ds

/-- Literal part of a pattern, one `RAtom.lit` per character. -/
def strLits (s : String) : List RAtom := s.data.map RAtom.lit

/-- The suppression pattern list of `ScriptRunner.is_filtered_output`
(`src/ui.py` lines 42-52), literals lowercased once since every match is
performed with `re.IGNORECASE`. -/
def filter_patterns : List (List RAtom) :=
  [ strLits "[i]" ++ [.dotStar] ++ strLits "io timeout"
  , strLits "[i]" ++ [.dotStar] ++ strLits "0x" ++ [.hexPlus, .dotStar] ++ strLits "io timeout"
  , strLits "io timeout"
  , strLits "[i]" ++ [.dotStar] ++ strLits "socks5 client udp construct"
  , strLits "[e]" ++ [.dotStar] ++ strLits "socks5 client res.rep 5"
  , strLits "[e]" ++ [.dotStar] ++ strLits "socks5 session handshake" ]

/-- The suppression pattern list of `LogMonitor.is_filtered_log`
(`src/ui.py` lines 147-157); textually the same six patterns. -/
def log_filter_patterns : List (List RAtom) :=
  [ strLits "[i]" ++ [.dotStar] ++ strLits "io timeout"
  , strLits "[i]" ++ [.dotStar] ++ strLits "0x" ++ [.hexPlus, .dotStar] ++ strLits "io timeout"
  , strLits "io timeout"
  , strLits "[i]" ++ [.dotStar] ++ strLits "socks5 client udp construct"
  , strLits "[e]" ++ [.dotStar] ++ strLits "socks5 client res.rep 5"
  , strLits "[e]" ++ [.dotStar] ++ strLits "socks5 session handshake" ]

/-- The check `ScriptRunner.is_filtered_output`: true iff some suppression pattern
matches the line (case-insensitively, anywhere in the line). -/
def is_filtered_output (line : String) : Bool :=
  filter_patterns.any (fun p => reSearch p line.data)

/-- The check `LogMonitor.is_filtered_log`: the same test against the log
pattern list. -/
def is_filtered_log (line : String) : Bool :=
  log_filter_patterns.any (fun p => reSearch p line.data)

/-- The events the supervision core emits toward the presentation layer:
`output` is `output_signal.emit`, `status` is `status_signal.emit`,
`finished` is `finished_signal.emit`, and `log` is `log_signal.emit`. -/
inductive Event where
  | output : String → Event
  | status : String → Event
  | finished : Int → Event
  | log : String → Event
deriving DecidableEq

/-- The characters that the Python method str.rstrip removes (ASCII whitespace). -/
def isPySpace (c : Char) : Bool :=
  c == ' ' || c == '\t' || c == '\n' || c == '\r' || c == '\x0b' || c == '\x0c'

/-- Python line.rstrip: drop trailing whitespace. -/
def pyRstrip (s : String) : String :=
  ⟨(s.data.reverse.dropWhile isPySpace).reverse⟩

/-- Python split on a newline separator, over character lists: always at
least one piece, one extra piece per newline. -/
def splitNl : List Char → List (List Char)
  | [] => [[]]
  | d :: ds =>
    match splitNl ds with
    | [] => [[d]]
    | h :: t => if d = '\n' then [] :: h :: t else (d :: h) :: t

/-- Python split on a newline separator, over strings. -/
def pySplit (s : String) : List String :=
  (splitNl s.data).map List.asString

/-- The reader loop of `ScriptRunner.run` (`src/ui.py` lines 76-82): each
`readline` result `l` with `if line:` true is stripped and emitted unless
`is_filtered_output` suppresses it. -/
def loopEvents (ls : List String) : List Event :=
  ls.filterMap (fun l =>
    if l = "" then none
    else if is_filtered_output (pyRstrip l) then none
    else some (.output (pyRstrip l)))

/-- The final drain of `ScriptRunner.run` (lines 85-92): the remaining
stream content is rstripped and split on newlines, giving the list of
lines still to be considered (empty when the remainder is empty, matching
the `if remaining_output:` guard). -/
def flushStrings (remaining : String) : List String :=
  if remaining = "" then [] else pySplit (pyRstrip remaining)

/-- Events produced by the final drain: each nonempty, non-suppressed line
of `flushStrings` is emitted. -/
def flushEvents (remaining : String) : List Event :=
  (flushStrings remaining).filterMap (fun l =>
    if l = "" then none
    else if is_filtered_output l then none else some (.output l))

/-- The full event trace of an execution of `ScriptRunner.run` that reaches
stream end (child exited, `poll()` non-`None` at the final check): the
initial status emit, the reader-loop emits for the lines `ls` read one at a
time, the drain of the `remaining` buffered output, then `finished_signal`
with the exit code of the child. -/
def runEvents (ls : List String) (remaining : String) (code : Int) : List Event :=
  .status "Tunnel enabled." :: (loopEvents ls ++ (flushEvents remaining ++ [.finished code]))

/-- The follow loop of `LogMonitor.run` (lines 172-180): each nonempty
`readline` result is stripped and emitted unless `is_filtered_log`
suppresses it. -/
def logLineEvents (ls : List String) : List Event :=
  ls.filterMap (fun l =>
    if l = "" then none
    else if is_filtered_log (pyRstrip l) then none
    else some (.log (pyRstrip l)))

/-- The seek-to-end `f.seek(0, 2)` at attach time (line 171): the read cursor starts at
end-of-file, i.e. past every line present when the file is opened. -/
def attachCursor (contentAtAttach : List String) : Nat :=
  contentAtAttach.length

/-- What the log tailer emits from a file whose eventual line list is
`finalContent`, reading from the attach-time cursor onward. -/
def tailEvents (finalContent : List String) (cursor : Nat) : List Event :=
  logLineEvents (finalContent.drop cursor)

/-- The discovery loop of `LogMonitor.run` (lines 166-182): iteration `n`
checks `os.path.exists`; the monitor attaches at the first iteration where
the file exists.  `fuel` bounds the number of iterations examined. -/
def attachPoll (ex : Nat → Bool) (fuel : Nat) : Option Nat :=
  (List.range fuel).find? ex

/-- The three signals `ScriptRunner.stop` can send to the process group. -/
inductive Sig where
  | sigint : Sig
  | sigterm : Sig
  | sigkill : Sig
deriving DecidableEq

/-- The environment `ScriptRunner.stop` runs against: whether `poll()` is
`None` on entry (`alive`), whether each `os.killpg` call finds the process
group (`groupN` false models `ProcessLookupError` raised at the N-th
signal attempt), and whether the process exits within the 10-second and
3-second waits. -/
structure ProcState where
  alive : Bool
  group0 : Bool
  exitsWithin10 : Bool
  group1 : Bool
  exitsWithin3 : Bool
  group2 : Bool
deriving DecidableEq

/-- The message emitted by the `ProcessLookupError` handler (line 132). -/
def msgAlready : String := "[SYSTEM] Process already terminated"

/-- The shutdown sequence `ScriptRunner.stop` (lines 101-134): the signals actually delivered to
the process group, in order, and the `output_signal` messages emitted.  A
`killpg` call whose process group is gone raises `ProcessLookupError`,
delivers nothing, and control jumps to the handler. -/
def scriptStop (p : ProcState) : List Sig × List String :=
  if !p.alive then ([], [])
  else
    let m0 := "[SYSTEM] Sending SIGINT (Ctrl+C) to tunnel process..."
    if !p.group0 then ([], [m0, msgAlready])
    else
      let m1 := [m0, "[SYSTEM] Waiting for clean shutdown..."]
      if p.exitsWithin10 then ([.sigint], m1 ++ ["[SYSTEM] Process stopped cleanly"])
      else
        let m2 := m1 ++ ["[SYSTEM] Clean shutdown timeout, forcing termination..."]
        if !p.group1 then ([.sigint], m2 ++ [msgAlready])
        else if p.exitsWithin3 then
          ([.sigint, .sigterm], m2 ++ ["[SYSTEM] Process terminated"])
        else
          let m3 := m2 ++ ["[SYSTEM] Force killing process..."]
          if !p.group2 then ([.sigint, .sigterm], m3 ++ [msgAlready])
          else ([.sigint, .sigterm, .sigkill], m3 ++ ["[SYSTEM] Process killed"])

/-- The pieces of GUI state `start_tunnel` and `stop_tunnel` touch. -/
structure GuiState where
  runnerStarted : Bool
  logTimerStarted : Bool
  startBtnEnabled : Bool
  stopBtnEnabled : Bool
  stopping : Bool
deriving DecidableEq

/-- Externally visible actions of `PDNRWTGui.start_tunnel`; `msgBoxCritical`
is the immediate error dialog (its text is presentation glue). -/
inductive GuiAction where
  | msgBoxCritical : GuiAction
  | startRunner : GuiAction
  | startLogTimer : GuiAction
deriving DecidableEq

/-- The launch entry point `PDNRWTGui.start_tunnel` (lines 329-371): `scriptExists` is the
`os.path.exists` probe, `sudoProbe` the result of `sudo -n true` (`none`
models `subprocess.run` raising).  Both failure paths show an error dialog
and return before any state is touched. -/
def start_tunnel (scriptExists : Bool) (sudoProbe : Option Int) (st : GuiState) :
    GuiState × List GuiAction :=
  if !scriptExists then (st, [.msgBoxCritical])
  else
    match sudoProbe with
    | none => (st, [.msgBoxCritical])
    | some rc =>
      if rc != 0 then (st, [.msgBoxCritical])
      else
        ({ runnerStarted := true, logTimerStarted := true,
           startBtnEnabled := false, stopBtnEnabled := true, stopping := false },
         [.startRunner, .startLogTimer])

/-- The stop entry point `PDNRWTGui.stop_tunnel` (lines 373-400): guarded by `self.stopping`; a
call arriving while a stop is in progress returns at once with no signals.
Otherwise the script runner is stopped (when it is running) and the UI is
reset, with `stopping` cleared at the end. -/
def stop_tunnel (p : ProcState) (runnerRunning : Bool) (st : GuiState) :
    GuiState × List Sig :=
  if st.stopping then (st, [])
  else
    let sigs := if runnerRunning then (scriptStop p).1 else []
    ({ st with stopping := false, startBtnEnabled := true, stopBtnEnabled := false }, sigs)

/-- The two filter predicates are literally the same check: the pattern
lists coincide. -/
theorem filters_ext_eq (line : String) : is_filtered_output line = is_filtered_log line := rfl

/-- Inversion for the reader loop: every emitted event is the stripped form
of some nonempty read line that passed the filter. -/
theorem mem_loopEvents {e : Event} {ls : List String} (h : e ∈ loopEvents ls) :
    ∃ l, l ∈ ls ∧ l ≠ "" ∧ is_filtered_output (pyRstrip l) = false ∧
      e = .output (pyRstrip l) := by
  simp only [loopEvents, List.mem_filterMap] at h
  obtain ⟨l, hmem, hl⟩ := h
  split_ifs at hl with h1 h2
  exact ⟨l, hmem, h1, by simpa using h2, (Option.some.inj hl).symm⟩

/-- Inversion for the final drain: every emitted event is a nonempty
non-suppressed line of the split remainder. -/
theorem mem_flushEvents {e : Event} {remaining : String} (h : e ∈ flushEvents remaining) :
    ∃ l, l ∈ flushStrings remaining ∧ l ≠ "" ∧ is_filtered_output l = false ∧
      e = .output l := by
  simp only [flushEvents, List.mem_filterMap] at h
  obtain ⟨l, hmem, hl⟩ := h
  split_ifs at hl with h1 h2
  exact ⟨l, hmem, h1, by simpa using h2, (Option.some.inj hl).symm⟩

/-- Inversion for the log follow loop. -/
theorem mem_logLineEvents {e : Event} {ls : List String} (h : e ∈ logLineEvents ls) :
    ∃ l, l ∈ ls ∧ l ≠ "" ∧ is_filtered_log (pyRstrip l) = false ∧
      e = .log (pyRstrip l) := by
  simp only [logLineEvents, List.mem_filterMap] at h
  obtain ⟨l, hmem, hl⟩ := h
  split_ifs at hl with h1 h2
  exact ⟨l, hmem, h1, by simpa using h2, (Option.some.inj hl).symm⟩

/-- C1: any line on which the suppression check returns true is never
emitted by the reader loop of `ScriptRunner.run` (neither in the line loop
nor in the final drain) and never emitted by the follow loop of
`LogMonitor.run`; in particular the line `[I] 0x1a2b io timeout` is
suppressed by both filters. -/
theorem c1_suppressed_never_forwarded (s : String) (ls tl : List String)
    (remaining : String) (code : Int) (hs : is_filtered_output s = true) :
    Event.output s ∉ runEvents ls remaining code ∧
    Event.log s ∉ logLineEvents tl ∧
    is_filtered_output "[I] 0x1a2b io timeout" = true ∧
    is_filtered_log "[I] 0x1a2b io timeout" = true := by
  refine ⟨?_, ?_, by decide, by decide⟩
  · intro hmem
    simp only [runEvents, List.mem_cons, List.mem_append] at hmem
    rcases hmem with h | h | h | h
    · cases h
    · obtain ⟨l, -, -, hfil, he⟩ := mem_loopEvents h
      injection he with he
      rw [he, hfil] at hs
      exact Bool.noConfusion hs
    · obtain ⟨l, -, -, hfil, he⟩ := mem_flushEvents h
      injection he with he
      rw [he, hfil] at hs
      exact Bool.noConfusion hs
    · rcases h with h | h
      · cases h
      · cases h
  · intro hmem
    obtain ⟨l, -, -, hfil, he⟩ := mem_logLineEvents hmem
    injection he with he
    rw [filters_ext_eq, he, hfil] at hs
    exact Bool.noConfusion hs

/-- Witness for C1 at the line from Scenario C of the spec. -/
theorem c1_witness :
    Event.output "[I] 0x1a2b io timeout" ∉
        runEvents ["[I] 0x1a2b io timeout\n", "connected to peer 10.0.0.1\n"] "" 0 ∧
    Event.log "[I] 0x1a2b io timeout" ∉ logLineEvents ["[I] 0x1a2b io timeout\n"] ∧
    is_filtered_output "[I] 0x1a2b io timeout" = true ∧
    is_filtered_log "[I] 0x1a2b io timeout" = true :=
  c1_suppressed_never_forwarded "[I] 0x1a2b io timeout"
    ["[I] 0x1a2b io timeout\n", "connected to peer 10.0.0.1\n"]
    ["[I] 0x1a2b io timeout\n"] "" 0 (by decide)

/-- C9: the suppression predicate of the process-output reader and the one
of the log tailer are extensionally equal, so both sources obey one
suppression policy. -/
theorem c9_filters_agree : ∀ line : String, is_filtered_output line = is_filtered_log line :=
  fun _ => rfl

/-- A pattern made only of literals matches at the start of `cs` as soon as
the lowered form of `cs` starts with the literal word. -/
theorem matchHere_lits (needle : List Char) : ∀ (cs rest : List Char),
    cs.map Char.toLower = needle ++ rest →
    matchHere (needle.map RAtom.lit) cs = true := by
  induction needle with
  | nil => intro cs rest h; rfl
  | cons c ns ih =>
    intro cs rest h
    cases cs with
    | nil => exact absurd h (by simp)
    | cons d ds =>
      simp only [List.map_cons, List.cons_append, List.cons.injEq] at h
      obtain ⟨h1, h2⟩ := h
      simp only [List.map_cons, matchHere, h1, beq_self_eq_true, Bool.true_and]
      exact ih ds rest h2

/-- A search succeeds whenever the pattern matches at the start of some
suffix. -/
theorem reSearch_append (p : List RAtom) : ∀ (u t : List Char),
    matchHere p t = true → reSearch p (u ++ t) = true := by
  intro u
  induction u with
  | nil =>
    intro t h
    cases t with
    | nil => simpa [reSearch] using h
    | cons d ds => simp [reSearch, h]
  | cons a u ih =>
    intro t h
    simp [reSearch, ih t h]

/-- C10: a line containing a segment whose lowercase form is `io timeout`
is classified as noise by both filters, whatever else the line contains:
the bare third pattern already matches, so such a line is suppressed. -/
theorem c10_io_timeout_subsumed (line : String)
    (h : ∃ u w v, line.data = u ++ w ++ v ∧ w.map Char.toLower = "io timeout".data) :
    is_filtered_output line = true ∧ is_filtered_log line = true := by
  obtain ⟨u, w, v, hline, hw⟩ := h
  have hmatch : matchHere (strLits "io timeout") (w ++ v) = true := by
    have : (w ++ v).map Char.toLower = "io timeout".data ++ v.map Char.toLower := by
      rw [List.map_append, hw]
    exact matchHere_lits _ (w ++ v) (v.map Char.toLower) this
  have hsearch : reSearch (strLits "io timeout") line.data = true := by
    rw [hline, List.append_assoc]
    exact reSearch_append _ u (w ++ v) hmatch
  have main : is_filtered_output line = true := by
    unfold is_filtered_output
    simp only [List.any_eq_true]
    exact ⟨strLits "io timeout", by decide, hsearch⟩
  exact ⟨main, filters_ext_eq line ▸ main⟩

/-- Witness for C10: a substantive message mentioning an io timeout is
still suppressed. -/
theorem c10_witness :
    is_filtered_output "critical: Io Timeout on main uplink, reconnecting" = true ∧
    is_filtered_log "critical: Io Timeout on main uplink, reconnecting" = true :=
  c10_io_timeout_subsumed "critical: Io Timeout on main uplink, reconnecting"
    ⟨"critical: ".data, "Io Timeout".data, " on main uplink, reconnecting".data,
      by decide, by decide⟩

/-- C2 counterexample: with buffered remainder `a\n\nb` at stream end, the
middle empty line of the split matches no suppression pattern, yet it is
never emitted (the drain guard `if line:` drops it), so not every
non-suppressed line of the split remainder reaches the sink. -/
theorem c2_counterexample :
    "" ∈ flushStrings "a\n\nb" ∧ is_filtered_output "" = false ∧
    Event.output "" ∉ runEvents [] "a\n\nb" 0 := by decide

/-- C2 (amended): in every execution of `ScriptRunner.run` that reaches
stream end, the termination event with the exit code of the child is the
last event emitted, and every nonempty non-suppressed line of the split
buffered remainder — including an unterminated trailing partial line — is
emitted before it.  (Empty lines of the split are dropped by the
`if line:` guard.) -/
theorem c2_flush_before_finished (ls : List String) (remaining : String) (code : Int)
    (s : String) (hmem : s ∈ flushStrings remaining) (hne : s ≠ "")
    (hf : is_filtered_output s = false) :
    (runEvents ls remaining code).getLast? = some (.finished code) ∧
    Event.output s ∈ (runEvents ls remaining code).dropLast := by
  have hshape : runEvents ls remaining code =
      (Event.status "Tunnel enabled." :: (loopEvents ls ++ flushEvents remaining)) ++
        [.finished code] := by
    simp [runEvents]
  constructor
  · rw [hshape, List.getLast?_concat]
  · rw [hshape, List.dropLast_concat]
    have hflush : Event.output s ∈ flushEvents remaining := by
      simp only [flushEvents, List.mem_filterMap]
      exact ⟨s, hmem, by simp [hne, hf]⟩
    exact List.mem_cons_of_mem _ (List.mem_append_right _ hflush)

/-- Witness for C2 at a trailing partial line with no newline terminator. -/
theorem c2_witness :
    (runEvents ["ready\n"] "half a line with no terminator" 7).getLast? =
        some (.finished 7) ∧
    Event.output "half a line with no terminator" ∈
        (runEvents ["ready\n"] "half a line with no terminator" 7).dropLast :=
  c2_flush_before_finished ["ready\n"] "half a line with no terminator" 7
    "half a line with no terminator" (by decide) (by decide) (by decide)

/-- Per-line count for the reader loop: a non-suppressed string is emitted
exactly once for each read line that strips to it. -/
theorem count_loopEvents (s : String) (hf : is_filtered_output s = false) :
    ∀ ls : List String, (loopEvents ls).count (Event.output s) =
      ls.countP (fun l => (!(l == "")) && (pyRstrip l == s)) := by
  intro ls
  induction ls with
  | nil => rfl
  | cons l t ih =>
    simp only [loopEvents] at ih ⊢
    by_cases h0 : l = ""
    · subst h0
      simp [List.filterMap_cons, List.countP_cons, ih]
    · by_cases h1 : is_filtered_output (pyRstrip l) = true
      · have hne : (pyRstrip l == s) = false :=
          beq_eq_false_iff_ne.mpr (fun he => by rw [he, hf] at h1; exact Bool.noConfusion h1)
        simp [List.filterMap_cons, h0, h1, List.countP_cons, hne, ih]
      · by_cases he : pyRstrip l = s
        · simp [List.filterMap_cons, h0, h1, List.count_cons,
            List.countP_cons, ih, he, hf]
        · have hne : (pyRstrip l == s) = false := beq_eq_false_iff_ne.mpr he
          simp [List.filterMap_cons, h0, h1, List.count_cons,
            List.countP_cons, ih, hne, Ne.symm he]

/-- Per-line count for the final drain, over an arbitrary split line list:
a nonempty non-suppressed string is emitted once per occurrence. -/
theorem count_flushList (s : String) (hf : is_filtered_output s = false) (hs : s ≠ "") :
    ∀ ls : List String,
      (ls.filterMap (fun l => if l = "" then none
        else if is_filtered_output l then none
        else some (Event.output l))).count (Event.output s) =
      ls.countP (fun l => l == s) := by
  intro ls
  induction ls with
  | nil => rfl
  | cons l t ih =>
    by_cases h0 : l = ""
    · subst h0
      have hne : (("" : String) == s) = false := beq_eq_false_iff_ne.mpr (Ne.symm hs)
      simp [List.filterMap_cons, List.countP_cons, hne, ih]
    · by_cases h1 : is_filtered_output l = true
      · have hne : (l == s) = false :=
          beq_eq_false_iff_ne.mpr (fun he => by rw [he, hf] at h1; exact Bool.noConfusion h1)
        simp [List.filterMap_cons, h0, h1, List.countP_cons, hne, ih]
      · by_cases he : l = s
        · simp [List.filterMap_cons, h0, h1, List.count_cons, List.countP_cons,
            ih, he, hf, hs]
        · have hne : (l == s) = false := beq_eq_false_iff_ne.mpr he
          simp [List.filterMap_cons, h0, h1, List.count_cons, List.countP_cons,
            ih, hne, Ne.symm he]

/-- Per-line count for the log follow loop. -/
theorem count_logLineEvents (s : String) (hf : is_filtered_log s = false) :
    ∀ ls : List String, (logLineEvents ls).count (Event.log s) =
      ls.countP (fun l => (!(l == "")) && (pyRstrip l == s)) := by
  intro ls
  induction ls with
  | nil => rfl
  | cons l t ih =>
    simp only [logLineEvents] at ih ⊢
    by_cases h0 : l = ""
    · subst h0
      simp [List.filterMap_cons, List.countP_cons, ih]
    · by_cases h1 : is_filtered_log (pyRstrip l) = true
      · have hne : (pyRstrip l == s) = false :=
          beq_eq_false_iff_ne.mpr (fun he => by rw [he, hf] at h1; exact Bool.noConfusion h1)
        simp [List.filterMap_cons, h0, h1, List.countP_cons, hne, ih]
      · by_cases he : pyRstrip l = s
        · simp [List.filterMap_cons, h0, h1, List.count_cons,
            List.countP_cons, ih, he, hf]
        · have hne : (pyRstrip l == s) = false := beq_eq_false_iff_ne.mpr he
          simp [List.filterMap_cons, h0, h1, List.count_cons,
            List.countP_cons, ih, hne, Ne.symm he]

/-- C4 counterexample: the empty line in the middle of the buffered
remainder `x\n\ny` matches no suppression pattern, yet the drain forwards
it zero times — it is dropped, so not every non-matching line is forwarded
exactly once. -/
theorem c4_counterexample :
    "" ∈ flushStrings "x\n\ny" ∧ is_filtered_output "" = false ∧
    (runEvents [] "x\n\ny" 0).count (Event.output "") = 0 := by decide

/-- C4 (amended): every nonempty line that matches no suppression pattern
is forwarded exactly once per occurrence, with its source tag preserved:
the process stream forwards it as an `output` event once for each read
line stripping to it plus once for each occurrence in the split buffered
remainder, and the log tailer forwards it as a `log` event once for each
tailed line stripping to it.  (An empty line is forwarded as the empty
string by the line-by-line loops but dropped by the end-of-stream drain.) -/
theorem c4_forwarded_exactly_once (s : String) (ls tl : List String)
    (remaining : String) (code : Int)
    (hf : is_filtered_output s = false) (hs : s ≠ "") :
    (runEvents ls remaining code).count (Event.output s) =
      ls.countP (fun l => (!(l == "")) && (pyRstrip l == s)) +
        (flushStrings remaining).countP (fun l => l == s) ∧
    (logLineEvents tl).count (Event.log s) =
      tl.countP (fun l => (!(l == "")) && (pyRstrip l == s)) := by
  constructor
  · have h1 := count_loopEvents s hf ls
    have h2 := count_flushList s hf hs (flushStrings remaining)
    simp [runEvents, List.count_cons, List.count_append, flushEvents, h1, h2]
  · exact count_logLineEvents s (filters_ext_eq s ▸ hf) tl

/-- Witness for C4 at the line from Scenario C of the spec: forwarded
exactly once from each source. -/
theorem c4_witness :
    (runEvents ["connected to peer 10.0.0.1\n"] "" 0).count
        (Event.output "connected to peer 10.0.0.1") = 1 ∧
    (logLineEvents ["connected to peer 10.0.0.1\n"]).count
        (Event.log "connected to peer 10.0.0.1") = 1 := by
  constructor
  · rw [(c4_forwarded_exactly_once "connected to peer 10.0.0.1"
      ["connected to peer 10.0.0.1\n"] [] "" 0 (by decide) (by decide)).1]
    decide
  · rw [(c4_forwarded_exactly_once "connected to peer 10.0.0.1" []
      ["connected to peer 10.0.0.1\n"] "" 0 (by decide) (by decide)).2]
    decide

/-- C3: the shutdown sequence of `ScriptRunner.stop` sends signals to the
process group only in the order interrupt, terminate, kill (the delivered
list is always a prefix of that sequence); terminate is sent only when the
process was alive and survived the 10-second wait after interrupt; kill is
sent only when it also survived the 3-second wait after terminate; and if
the process had already exited on entry, no signal is sent at all. -/
theorem c3_signal_escalation (p : ProcState) :
    ((scriptStop p).1 = [] ∨ (scriptStop p).1 = [.sigint] ∨
      (scriptStop p).1 = [.sigint, .sigterm] ∨
      (scriptStop p).1 = [.sigint, .sigterm, .sigkill]) ∧
    (Sig.sigterm ∈ (scriptStop p).1 →
      p.alive = true ∧ p.exitsWithin10 = false) ∧
    (Sig.sigkill ∈ (scriptStop p).1 →
      p.alive = true ∧ p.exitsWithin10 = false ∧ p.exitsWithin3 = false) ∧
    (p.alive = false → (scriptStop p).1 = []) := by
  rcases p with ⟨a, g0, w10, g1, w3, g2⟩
  cases a <;> cases g0 <;> cases w10 <;> cases g1 <;> cases w3 <;> cases g2 <;> decide

/-- Witness for C3 at a process that ignores interrupt and terminate:
the full escalation is delivered in order. -/
theorem c3_witness :
    (((scriptStop ⟨true, true, false, true, false, true⟩).1 = [] ∨
      (scriptStop ⟨true, true, false, true, false, true⟩).1 = [.sigint] ∨
      (scriptStop ⟨true, true, false, true, false, true⟩).1 = [.sigint, .sigterm] ∨
      (scriptStop ⟨true, true, false, true, false, true⟩).1 =
        [.sigint, .sigterm, .sigkill]) ∧
    (Sig.sigterm ∈ (scriptStop ⟨true, true, false, true, false, true⟩).1 →
      (true : Bool) = true ∧ (false : Bool) = false) ∧
    (Sig.sigkill ∈ (scriptStop ⟨true, true, false, true, false, true⟩).1 →
      (true : Bool) = true ∧ (false : Bool) = false ∧ (false : Bool) = false) ∧
    ((true : Bool) = false → (scriptStop ⟨true, true, false, true, false, true⟩).1 = [])) :=
  c3_signal_escalation ⟨true, true, false, true, false, true⟩

/-- C5: a `stop_tunnel` call arriving while a stop is already in progress
(`self.stopping` true) is a complete no-op — unchanged state and no
signals — and `ScriptRunner.stop` invoked once the process has already
exited delivers no signal, so at most one escalation sequence is issued. -/
theorem c5_stop_idempotent (p q : ProcState) (rr : Bool) (st : GuiState)
    (hstopping : st.stopping = true) (hexited : q.alive = false) :
    stop_tunnel p rr st = (st, []) ∧ (scriptStop q).1 = [] := by
  constructor
  · simp [stop_tunnel, hstopping]
  · rcases q with ⟨a, g0, w10, g1, w3, g2⟩
    cases a
    · cases g0 <;> cases w10 <;> cases g1 <;> cases w3 <;> cases g2 <;> decide
    · exact Bool.noConfusion hexited

/-- Witness for C5: a concrete in-progress state and an exited process. -/
theorem c5_witness :
    stop_tunnel ⟨true, true, true, true, true, true⟩ true
        ⟨true, true, false, false, true⟩ =
      (⟨true, true, false, false, true⟩, []) ∧
    (scriptStop ⟨false, true, true, true, true, true⟩).1 = [] :=
  c5_stop_idempotent ⟨true, true, true, true, true, true⟩
    ⟨false, true, true, true, true, true⟩ true
    ⟨true, true, false, false, true⟩ (by decide) (by decide)

/-- C6: if the log file exists at some poll iteration `n`, the discovery
loop of `LogMonitor.run` attaches at the first iteration `k ≤ n` at which
the file exists; and because the attach seeks to end-of-file, the events
emitted afterwards are exactly those of the lines appended after the
attach point — no line present at attach time is ever forwarded. -/
theorem c6_tailer_attaches_at_eof (ex : Nat → Bool) (n : Nat) (hex : ex n = true)
    (pre post : List String) :
    (∃ k, k ≤ n ∧ attachPoll ex (n + 1) = some k ∧ ex k = true) ∧
    tailEvents (pre ++ post) (attachCursor pre) = logLineEvents post := by
  constructor
  · have hmem : n ∈ List.range (n + 1) := List.mem_range.mpr (Nat.lt_succ_self n)
    cases hfind : (List.range (n + 1)).find? ex with
    | none => exact absurd hex (List.find?_eq_none.mp hfind n hmem)
    | some k =>
      refine ⟨k, ?_, hfind, List.find?_some hfind⟩
      exact Nat.lt_succ_iff.mp (List.mem_range.mp (List.mem_of_find?_eq_some hfind))
  · simp [tailEvents, attachCursor, List.drop_left]

/-- Witness for C6: the file appears at poll iteration 2; two lines were
present at attach time and one is appended afterwards. -/
theorem c6_witness :
    (∃ k, k ≤ 2 ∧ attachPoll (fun i => i == 2) (2 + 1) = some k ∧ (k == 2) = true) ∧
    tailEvents (["old line one", "old line two"] ++ ["connected to peer 10.0.0.1\n"])
        (attachCursor ["old line one", "old line two"]) =
      logLineEvents ["connected to peer 10.0.0.1\n"] :=
  c6_tailer_attaches_at_eof (fun i => i == 2) 2 (by decide)
    ["old line one", "old line two"] ["connected to peer 10.0.0.1\n"]

/-- C7: if the executable is missing or the non-interactive sudo pre-check
does not return 0 (including the probe failing to execute at all), then
`start_tunnel` reports the error immediately and leaves every piece of
state untouched: no runner is created, no log timer is started, and the
button state is unchanged — the only action is the error dialog. -/
theorem c7_launch_failure_no_partial_state (scriptExists : Bool) (sudoProbe : Option Int)
    (st : GuiState) (h : scriptExists = false ∨ sudoProbe ≠ some 0) :
    (start_tunnel scriptExists sudoProbe st).1 = st ∧
    (start_tunnel scriptExists sudoProbe st).2 = [.msgBoxCritical] := by
  rcases h with h | h
  · subst h; simp [start_tunnel]
  · cases scriptExists
    · simp [start_tunnel]
    · cases sudoProbe with
      | none => simp [start_tunnel]
      | some rc =>
        have hrc : rc ≠ 0 := fun h0 => h (by rw [h0])
        simp [start_tunnel, hrc]

/-- Witness for C7 at a missing executable. -/
theorem c7_witness :
    (start_tunnel false (some 0) ⟨false, false, true, false, false⟩).1 =
      ⟨false, false, true, false, false⟩ ∧
    (start_tunnel false (some 0) ⟨false, false, true, false, false⟩).2 =
      [.msgBoxCritical] :=
  c7_launch_failure_no_partial_state false (some 0)
    ⟨false, false, true, false, false⟩ (Or.inl rfl)

/-- C8: when `os.killpg` raises `ProcessLookupError` because the process
exited independently, `ScriptRunner.stop` completes benignly: no further
signal is delivered beyond those already sent, the trace ends with the
benign already-terminated message, and no error is reported — at whichever
escalation stage the race occurs. -/
theorem c8_lookup_race_benign (p : ProcState) (ha : p.alive = true) :
    (p.group0 = false → scriptStop p =
      ([], ["[SYSTEM] Sending SIGINT (Ctrl+C) to tunnel process...", msgAlready])) ∧
    (p.group0 = true → p.exitsWithin10 = false → p.group1 = false →
      (scriptStop p).1 = [Sig.sigint] ∧
        (scriptStop p).2.getLast? = some msgAlready) ∧
    (p.group0 = true → p.exitsWithin10 = false → p.group1 = true →
        p.exitsWithin3 = false → p.group2 = false →
      (scriptStop p).1 = [Sig.sigint, Sig.sigterm] ∧
        (scriptStop p).2.getLast? = some msgAlready) := by
  rcases p with ⟨a, g0, w10, g1, w3, g2⟩
  cases a
  · exact Bool.noConfusion ha
  · cases g0 <;> cases w10 <;> cases g1 <;> cases w3 <;> cases g2 <;> decide

/-- Witness for C8 at a process that vanishes between `poll()` and the
first `killpg`. -/
theorem c8_witness :
    ((false : Bool) = false → scriptStop ⟨true, false, true, true, true, true⟩ =
      ([], ["[SYSTEM] Sending SIGINT (Ctrl+C) to tunnel process...", msgAlready])) ∧
    ((false : Bool) = true → (true : Bool) = false → (true : Bool) = false →
      (scriptStop ⟨true, false, true, true, true, true⟩).1 = [Sig.sigint] ∧
        (scriptStop ⟨true, false, true, true, true, true⟩).2.getLast? = some msgAlready) ∧
    ((false : Bool) = true → (true : Bool) = false → (true : Bool) = true →
        (true : Bool) = false → (true : Bool) = false →
      (scriptStop ⟨true, false, true, true, true, true⟩).1 = [Sig.sigint, Sig.sigterm] ∧
        (scriptStop ⟨true, false, true, true, true, true⟩).2.getLast? = some msgAlready) :=
  c8_lookup_race_benign ⟨true, false, true, true, true, true⟩ (by decide)
